import Mathlib

/-!
Shallow embedding of the authentication core of the turso CLI
(internal/cmd/auth.go): the login orchestrator, the ephemeral callback
server, the browser launcher, the version probe, and the companion
logout / token commands.

External effects (settings store, network, OS browser open) are modelled
by an environment record that fixes each call's outcome; user-visible
actions and resource events are recorded in an event trace, in the order
the Go code performs them.
-/

namespace TursoAuth

/-- Observable events of one command run, in program order. -/
inductive Event where
  /-- a GET of the remote token-validation endpoint was issued -/
  | validateRequest : Event
  /-- the callback server bound a local TCP port -/
  | portBound : Nat → Event
  /-- the OS browser-open call succeeded on this URL -/
  | browserOpen : String → Event
  /-- the login URL was printed for manual use -/
  | printURL : String → Event
  /-- the orchestrator received a credential from the result channel -/
  | recvJwt : String → Event
  /-- the settings write of this token value completed (with or without error) -/
  | setToken : String → Event
  /-- the callback server was shut down -/
  | shutdown : Event
  /-- the orchestrator received a value from the version channel -/
  | recvVersion : String → Event
  /-- the upgrade reminder was printed -/
  | printUpgradeNotice : Event
  /-- logout printed that no user is logged in -/
  | printNoUserLoggedIn : Event
  /-- logout printed the logged-out confirmation -/
  | printLoggedOut : Event
deriving DecidableEq, Repr

/-- Outcomes of the external calls made by `fetchLatestVersion`:
whether the GET of /releases/latest succeeded, its HTTP status, whether
reading the body succeeded, whether the JSON unmarshal succeeded, and
the value of the "latest" field. -/
structure FetchEnv where
  netOk : Bool
  statusCode : Nat
  readOk : Bool
  jsonOk : Bool
  latest : String
deriving DecidableEq, Repr

/-- Outcomes of the external calls made by `login` / `logout` / `token`:
settings read, stored token value, validation response (none = network
error), template parse, listener bind, assigned port, auth-URL parse,
host string, browser open, version-probe environment, the jwt value the
callback handler sends on the channel, and the settings write outcome. -/
structure Env where
  readSettingsOk : Bool
  storedToken : String
  validateResp : Option Nat
  templateOk : Bool
  listenOk : Bool
  port : Nat
  parseHostOk : Bool
  host : String
  browserOpenOk : Bool
  fetch : FetchEnv
  jwtCallback : String
  setTokenOk : Bool
deriving DecidableEq, Repr

/-- `isJwtTokenValid`: an empty token is invalid without any network
call; otherwise one GET of /v2/validate/token is issued and the token is
valid iff it returned without error with status 200. -/
def isJwtTokenValid (validateResp : Option Nat) (token : String) :
    Bool × List Event :=
  if token.length = 0 then (false, [])
  else
    match validateResp with
    | none => (false, [Event.validateRequest])
    | some code => (code == 200, [Event.validateRequest])

/-- `fetchLatestVersion`: GET /releases/latest; errors on network
failure, non-200 status, body read failure, unmarshal failure, or an
empty "latest" field; otherwise returns the "latest" field. -/
def fetchLatestVersion (e : FetchEnv) : Except String String :=
  if !e.netOk then Except.error "network error"
  else if e.statusCode ≠ 200 then Except.error "error getting latest release"
  else if !e.readOk then Except.error "error reading body"
  else if !e.jsonOk then Except.error "error unmarshaling body"
  else if e.latest.length = 0 then Except.error "got empty version for latest release"
  else Except.ok e.latest

/-- The goroutine `login` spawns: on any `fetchLatestVersion` error it
sends the caller-supplied current version on the version channel,
otherwise the fetched version. -/
def versionGoroutine (ver : String) (e : FetchEnv) : String :=
  match fetchLatestVersion e with
  | Except.error _ => ver
  | Except.ok v => v

/-- The auth URL `beginAuth` composes: the host with query parameters
port=<N> and redirect=true (url.Values.Encode orders keys port,
redirect). -/
def composedAuthUrl (host : String) (port : Nat) : String :=
  host ++ "?port=" ++ toString port ++ "&redirect=true"

/-- `beginAuth`: errors if the configured host does not parse as a URL;
otherwise composes the auth URL and asks the OS to open it; if the open
fails it prints the URL instead and still returns nil. -/
def beginAuth (parseHostOk : Bool) (host : String) (browserOpenOk : Bool)
    (port : Nat) : Except String Unit × List Event :=
  if !parseHostOk then (Except.error "error parsing auth URL", [])
  else
    let u := composedAuthUrl host port
    if browserOpenOk then (Except.ok (), [Event.browserOpen u])
    else (Except.ok (), [Event.printURL u])

/-- `url.Values.Get`: the first value associated with the key, or the
empty string when the key is absent. -/
def queryGet (q : List (String × String)) (key : String) : String :=
  match q.find? (fun kv => kv.fst = key) with
  | some kv => kv.snd
  | none => ""

/-- The value the callback handler pushes on the result channel: the
`jwt` query parameter of the request, unchanged. -/
def callbackHandlerJwt (q : List (String × String)) : String :=
  queryGet q "jwt"

/-- `login` (RunE of the login command), as the Go code sequences it:
read settings; validate the stored token and short-circuit if valid;
create the callback server (template parse); run it (bind a port);
begin auth (parse host, open browser); receive the jwt from the result
channel; write it to settings; shut the server down; return the
persistence error if any; receive from the version channel; print the
upgrade notice if the versions differ. -/
def login (ver : String) (env : Env) : Except String Unit × List Event :=
  if !env.readSettingsOk then
    (Except.error "could not retrieve local config", [])
  else
    let v := isJwtTokenValid env.validateResp env.storedToken
    if v.fst then (Except.ok (), v.snd)
    else if !env.templateOk then
      (Except.error "internal error. Cannot create callback", v.snd)
    else if !env.listenOk then
      (Except.error "internal error. Cannot run authentication server", v.snd)
    else
      let ev₂ := v.snd ++ [Event.portBound env.port]
      let ba := beginAuth env.parseHostOk env.host env.browserOpenOk env.port
      match ba.fst with
      | Except.error _ =>
          (Except.error "internal error. Cannot initiate auth flow", ev₂ ++ ba.snd)
      | Except.ok _ =>
          let jwt := env.jwtCallback
          let ev₄ := ev₂ ++ ba.snd ++
            [Event.recvJwt jwt, Event.setToken jwt, Event.shutdown]
          if !env.setTokenOk then
            (Except.error "error persisting token on local config", ev₄)
          else
            let latestVersion := versionGoroutine ver env.fetch
            let ev₅ := ev₄ ++ [Event.recvVersion latestVersion]
            if ver ≠ latestVersion then
              (Except.ok (), ev₅ ++ [Event.printUpgradeNotice])
            else (Except.ok (), ev₅)

/-- Outcomes of the external calls made by `logout`. -/
structure LogoutEnv where
  readSettingsOk : Bool
  storedToken : String
  setTokenOk : Bool
deriving DecidableEq, Repr

/-- `logout` (RunE of the logout command): read settings; if the stored
token is empty print "No user logged in."; otherwise write "" to
settings — the write's return value is discarded by the Go code, so the
outcome does not depend on `setTokenOk` — and print "Logged out.";
return nil. -/
def logout (env : LogoutEnv) : Except String Unit × List Event :=
  if !env.readSettingsOk then
    (Except.error "could not retrieve local config", [])
  else if env.storedToken.length = 0 then
    (Except.ok (), [Event.printNoUserLoggedIn])
  else
    (Except.ok (), [Event.setToken "", Event.printLoggedOut])

/-- `token` (RunE of the token command): read settings; validate the
stored token; error if invalid; otherwise print the token. -/
def tokenCmd (env : Env) : Except String Unit × List Event :=
  if !env.readSettingsOk then
    (Except.error "could not retrieve local config", [])
  else
    let v := isJwtTokenValid env.validateResp env.storedToken
    if !v.fst then
      (Except.error "no user logged in. Run `turso auth login` to log in and get a token", v.snd)
    else (Except.ok (), v.snd)

/-- Index of the first occurrence of an event in a trace (the trace's
length when absent). -/
def firstIndexOf (t : List Event) (e : Event) : Nat :=
  match t with
  | [] => 0
  | x :: xs => if x = e then 0 else firstIndexOf xs e + 1

/-- Number of occurrences of an event in a trace. -/
def countEvent (t : List Event) (e : Event) : Nat :=
  (t.filter (fun x => decide (x = e))).length

/-- The event is a port binding. -/
def isPortBound : Event → Bool
  | Event.portBound _ => true
  | _ => false

/-- The event is a successful OS browser-open call. -/
def isBrowserOpen : Event → Bool
  | Event.browserOpen _ => true
  | _ => false

/-! Channel model for the callback server (`make(chan string, 1)` plus
goroutine-per-request handlers): each hit of the callback endpoint runs
a handler that sends on the buffered channel; a send on a full channel
blocks that handler goroutine; the orchestrator performs one blocking
receive, which also lets the oldest blocked sender complete. -/

/-- Capacity of the result channel in `login`. -/
def chanCap : Nat := 1

/-- The channel and the goroutines around it: buffered values, values
of handler goroutines blocked in their send (FIFO), and values the
orchestrator has received. -/
structure ChanSys where
  buf : List String
  blocked : List String
  received : List String
deriving DecidableEq, Repr

/-- Initial state: empty channel, no handler running, nothing received. -/
def chanInit : ChanSys := ⟨[], [], []⟩

/-- One hit of the callback endpoint: the server accepts the request in
a fresh goroutine, whose send either buffers the value (channel not
full) or blocks that goroutine. The accept loop itself never blocks. -/
def hitStep (s : ChanSys) (v : String) : ChanSys :=
  if s.buf.length < chanCap then { s with buf := s.buf ++ [v] }
  else { s with blocked := s.blocked ++ [v] }

/-- The orchestrator's blocking receive: takes the oldest buffered
value; the oldest blocked sender, if any, then completes its send. -/
def recvStep (s : ChanSys) : ChanSys :=
  match s.buf with
  | [] => s
  | v :: rest =>
    match s.blocked with
    | [] => { s with buf := rest, received := s.received ++ [v] }
    | b :: bs => { buf := rest ++ [b], blocked := bs, received := s.received ++ [v] }

/-- Run a sequence of callback hits. -/
def runHits (s : ChanSys) (hits : List String) : ChanSys :=
  hits.foldl hitStep s

/-- The delivery behaviour of `login`'s callback channel: some hits
arrive, the orchestrator performs its single receive (`jwt := <-ch`),
and further hits may keep arriving afterwards. -/
def loginDelivery (before after : List String) : ChanSys :=
  runHits (recvStep (runHits chanInit before)) after

/-- Values held anywhere in the system: buffered, in a blocked sender,
or already received. Every accepted hit is accounted for in one of the
three places — no hit is lost and none crashes the server. -/
def totalCount (s : ChanSys) : Nat :=
  s.buf.length + s.blocked.length + s.received.length

/-- A run of the external world in which every call succeeds: settings
readable, no stored token, a working template, listener, host and
browser, a version probe that returns the current version, and a
callback delivering the token "abc". -/
def envBase : Env :=
  { readSettingsOk := true, storedToken := "", validateResp := none,
    templateOk := true, listenOk := true, port := 8080,
    parseHostOk := true, host := "https://api.turso.io",
    browserOpenOk := true,
    fetch := { netOk := true, statusCode := 200, readOk := true,
               jsonOk := true, latest := "v1" },
    jwtCallback := "abc", setTokenOk := true }

/-- Same world, except the configured host fails to parse as a URL, so
`beginAuth` returns an error. -/
def envNoParse : Env := { envBase with parseHostOk := false }

/-- Same world, except the settings write fails. -/
def envNoPersist : Env := { envBase with setTokenOk := false }

/-- Same world, except a non-empty token "tok" is stored and the remote
validation call answers 200. -/
def envValidTok : Env :=
  { envBase with storedToken := "tok", validateResp := some 200 }

/-- Same world, except the latest-release endpoint answers status 500. -/
def envFetch500 : Env :=
  { envBase with fetch := { envBase.fetch with statusCode := 500 } }

/-- Same world, except the callback request carried no jwt value, so the
handler sends the empty string. -/
def envEmptyJwt : Env := { envBase with jwtCallback := "" }

/-- Same world, except the OS browser-open call fails. -/
def envNoBrowser : Env := { envBase with browserOpenOk := false }

/-- A callback query string with a username but no jwt parameter. -/
def qNoJwt : List (String × String) := [("username", "alice")]

/-! Helper lemmas about the embedded operations. -/

/-- The validation call records at most one event: none for an empty
token, one request otherwise. -/
theorem isJwtTokenValid_snd (vr : Option Nat) (tok : String) :
    (isJwtTokenValid vr tok).snd = [] ∨
    (isJwtTokenValid vr tok).snd = [Event.validateRequest] := by
  unfold isJwtTokenValid
  split
  · exact Or.inl rfl
  · cases vr <;> exact Or.inr rfl

/-- The full trace of `login` on the callback path: validation events,
port binding, browser open (or URL fallback), credential receive, the
settings write, the shutdown, and — only when the write succeeded — the
version join and the optional upgrade notice. -/
theorem login_trace (ver : String) (env : Env)
    (h₁ : env.readSettingsOk = true)
    (h₂ : (isJwtTokenValid env.validateResp env.storedToken).fst = false)
    (h₃ : env.templateOk = true) (h₄ : env.listenOk = true)
    (h₅ : env.parseHostOk = true) :
    (login ver env).snd =
      (isJwtTokenValid env.validateResp env.storedToken).snd
        ++ [Event.portBound env.port]
        ++ (if env.browserOpenOk then
              [Event.browserOpen (composedAuthUrl env.host env.port)]
            else [Event.printURL (composedAuthUrl env.host env.port)])
        ++ [Event.recvJwt env.jwtCallback, Event.setToken env.jwtCallback,
            Event.shutdown]
        ++ (if env.setTokenOk then
              [Event.recvVersion (versionGoroutine ver env.fetch)]
                ++ (if ver ≠ versionGoroutine ver env.fetch then
                      [Event.printUpgradeNotice]
                    else [])
            else []) := by
  cases hb : env.browserOpenOk <;> cases hs : env.setTokenOk <;>
    simp [login, beginAuth, h₁, h₂, h₃, h₄, h₅, hb, hs] <;>
    split <;> simp

/-- The result of `login` on the callback path is determined by the
settings write. -/
theorem login_result (ver : String) (env : Env)
    (h₁ : env.readSettingsOk = true)
    (h₂ : (isJwtTokenValid env.validateResp env.storedToken).fst = false)
    (h₃ : env.templateOk = true) (h₄ : env.listenOk = true)
    (h₅ : env.parseHostOk = true) :
    (login ver env).fst =
      if env.setTokenOk then Except.ok ()
      else Except.error "error persisting token on local config" := by
  cases hb : env.browserOpenOk <;> cases hs : env.setTokenOk <;>
    simp [login, beginAuth, h₁, h₂, h₃, h₄, h₅, hb, hs] <;>
    split <;> simp

/-- Claim C1, as stated, is false on the code: in the completed
successful run `login "v1" envBase`, the server shutdown does NOT happen
before the settings write of the received credential completes — the
write (`settings.SetToken(jwt)`) completes first, and only then is
`server.Shutdown` called. -/
theorem c1_counterexample :
    ¬ (firstIndexOf (login "v1" envBase).snd Event.shutdown <
        firstIndexOf (login "v1" envBase).snd (Event.setToken "abc")) := by
  decide

/-- Claim C1 amended: in every completed run of login that reaches the
Persisting state, the write of the received credential to persisted
settings completes before the callback server's shutdown, and the
shutdown occurs exactly once, regardless of whether the persistence
write succeeds or fails. -/
theorem c1_persist_completes_before_shutdown (ver : String) (env : Env)
    (h₁ : env.readSettingsOk = true)
    (h₂ : (isJwtTokenValid env.validateResp env.storedToken).fst = false)
    (h₃ : env.templateOk = true) (h₄ : env.listenOk = true)
    (h₅ : env.parseHostOk = true) :
    countEvent (login ver env).snd Event.shutdown = 1 ∧
    firstIndexOf (login ver env).snd (Event.setToken env.jwtCallback) <
      firstIndexOf (login ver env).snd Event.shutdown := by
  rw [login_trace ver env h₁ h₂ h₃ h₄ h₅]
  rcases isJwtTokenValid_snd env.validateResp env.storedToken with hv | hv <;>
    rw [hv] <;>
    cases hb : env.browserOpenOk <;> cases hs : env.setTokenOk <;>
      simp [countEvent, firstIndexOf]

/-- Witness for the amended C1 at the concrete successful run. -/
theorem c1_witness :
    countEvent (login "v1" envBase).snd Event.shutdown = 1 ∧
    firstIndexOf (login "v1" envBase).snd
        (Event.setToken envBase.jwtCallback) <
      firstIndexOf (login "v1" envBase).snd Event.shutdown :=
  c1_persist_completes_before_shutdown "v1" envBase rfl rfl rfl rfl rfl

/-- Claim C2, as stated, is false on the code: in `login "v1" envNoParse`
the callback server is started (a port is bound), `beginAuth` then fails,
and login returns the error without ever shutting the server down. -/
theorem c2_counterexample :
    countEvent (login "v1" envNoParse).snd (Event.portBound 8080) = 1 ∧
    countEvent (login "v1" envNoParse).snd Event.shutdown = 0 ∧
    (login "v1" envNoParse).fst =
      Except.error "internal error. Cannot initiate auth flow" := by
  refine ⟨?_, ?_, ?_⟩ <;> rfl

/-- Claim C2 amended: after the callback server has been started, login
shuts it down exactly once on every exit path except the beginAuth
failure path; when beginAuth fails (the configured host does not parse),
login returns the error without shutting the server down. -/
theorem c2_shutdown_on_exit_paths (ver : String) (env : Env)
    (h₁ : env.readSettingsOk = true)
    (h₂ : (isJwtTokenValid env.validateResp env.storedToken).fst = false)
    (h₃ : env.templateOk = true) (h₄ : env.listenOk = true) :
    (env.parseHostOk = true →
      countEvent (login ver env).snd Event.shutdown = 1) ∧
    (env.parseHostOk = false →
      countEvent (login ver env).snd Event.shutdown = 0 ∧
      (login ver env).fst =
        Except.error "internal error. Cannot initiate auth flow") := by
  constructor
  · intro h₅
    rw [login_trace ver env h₁ h₂ h₃ h₄ h₅]
    rcases isJwtTokenValid_snd env.validateResp env.storedToken with hv | hv <;>
      rw [hv] <;>
      cases hb : env.browserOpenOk <;> cases hs : env.setTokenOk <;>
        simp [countEvent, firstIndexOf]
  · intro h₅
    rcases isJwtTokenValid_snd env.validateResp env.storedToken with hv | hv <;>
      simp [login, beginAuth, h₁, h₂, h₃, h₄, h₅, hv, countEvent]

/-- Witness for the amended C2 at a concrete run. -/
theorem c2_witness :
    (envBase.parseHostOk = true →
      countEvent (login "v1" envBase).snd Event.shutdown = 1) ∧
    (envBase.parseHostOk = false →
      countEvent (login "v1" envBase).snd Event.shutdown = 0 ∧
      (login "v1" envBase).fst =
        Except.error "internal error. Cannot initiate auth flow") :=
  c2_shutdown_on_exit_paths "v1" envBase rfl rfl rfl rfl

/-- Claim C3, as stated, is false on the code: `logout` with the
non-empty stored token "abc" and a failing settings write still attempts
the write of "" and returns success, not an error. -/
theorem c3_counterexample :
    (logout ⟨true, "abc", false⟩).snd =
      [Event.setToken "", Event.printLoggedOut] ∧
    (logout ⟨true, "abc", false⟩).fst = Except.ok () := by
  refine ⟨?_, ?_⟩ <;> rfl

/-- Claim C3 amended: when the settings write of the token fails, login
is fatal — it returns the persistence error — but logout discards the
write's result and reports success even for a non-empty stored token
whose settings write fails. -/
theorem c3_persistence_fatal_only_in_login (ver : String) (env : Env)
    (envL : LogoutEnv)
    (h₁ : env.readSettingsOk = true)
    (h₂ : (isJwtTokenValid env.validateResp env.storedToken).fst = false)
    (h₃ : env.templateOk = true) (h₄ : env.listenOk = true)
    (h₅ : env.parseHostOk = true) (h₆ : env.setTokenOk = false)
    (hL₁ : envL.readSettingsOk = true) (hL₂ : envL.storedToken.length ≠ 0) :
    (login ver env).fst =
      Except.error "error persisting token on local config" ∧
    (logout envL).fst = Except.ok () := by
  constructor
  · rw [login_result ver env h₁ h₂ h₃ h₄ h₅, h₆]
    rfl
  · simp [logout, hL₁, hL₂]

/-- Witness for the amended C3 at concrete runs. -/
theorem c3_witness :
    (login "v1" envNoPersist).fst =
      Except.error "error persisting token on local config" ∧
    (logout ⟨true, "abc", false⟩).fst = Except.ok () :=
  c3_persistence_fatal_only_in_login "v1" envNoPersist ⟨true, "abc", false⟩
    rfl rfl rfl rfl rfl rfl rfl (by decide)

/-- Claim C4: when the persisted credential is non-empty and remote
validation returns HTTP 200, login returns success immediately; its
trace is exactly the one validation request — no port is bound, no
browser-open call and no URL fallback happens, and no server event of
any kind occurs. -/
theorem c4_short_circuit_on_valid (ver : String) (env : Env)
    (h₁ : env.readSettingsOk = true)
    (h₂ : env.storedToken.length ≠ 0)
    (h₃ : env.validateResp = some 200) :
    (login ver env).fst = Except.ok () ∧
    (login ver env).snd = [Event.validateRequest] ∧
    ((login ver env).snd.all
      (fun e => !(isPortBound e) && !(isBrowserOpen e))) = true := by
  have hv : isJwtTokenValid env.validateResp env.storedToken =
      (true, [Event.validateRequest]) := by
    simp [isJwtTokenValid, h₂, h₃]
  simp [login, h₁, hv, isPortBound, isBrowserOpen]

/-- Witness for C4: a stored token "tok" that validates with 200. -/
theorem c4_witness :
    (login "v1" envValidTok).fst = Except.ok () ∧
    (login "v1" envValidTok).snd = [Event.validateRequest] ∧
    (((login "v1" envValidTok).snd.all
      (fun e => !(isPortBound e) && !(isBrowserOpen e))) = true) :=
  c4_short_circuit_on_valid "v1" envValidTok rfl (by decide) rfl

/-- Claim C5: whenever `fetchLatestVersion` fails — network error,
non-200 status, unreadable body, malformed JSON, or an empty "latest"
field — the goroutine sends the caller-supplied current version on the
version channel, login receives exactly that value, no upgrade notice is
printed, and login still succeeds. -/
theorem c5_version_probe_absorbs_failure (ver msg : String) (env : Env)
    (h₀ : fetchLatestVersion env.fetch = Except.error msg)
    (h₁ : env.readSettingsOk = true)
    (h₂ : (isJwtTokenValid env.validateResp env.storedToken).fst = false)
    (h₃ : env.templateOk = true) (h₄ : env.listenOk = true)
    (h₅ : env.parseHostOk = true) (h₆ : env.setTokenOk = true) :
    versionGoroutine ver env.fetch = ver ∧
    (login ver env).fst = Except.ok () ∧
    countEvent (login ver env).snd (Event.recvVersion ver) = 1 ∧
    countEvent (login ver env).snd Event.printUpgradeNotice = 0 := by
  have hg : versionGoroutine ver env.fetch = ver := by
    unfold versionGoroutine
    rw [h₀]
  refine ⟨hg, ?_, ?_, ?_⟩
  · rw [login_result ver env h₁ h₂ h₃ h₄ h₅, h₆]
    rfl
  · rw [login_trace ver env h₁ h₂ h₃ h₄ h₅, hg]
    rcases isJwtTokenValid_snd env.validateResp env.storedToken with hv | hv <;>
      rw [hv] <;> cases hb : env.browserOpenOk <;>
        simp [countEvent, h₆]
  · rw [login_trace ver env h₁ h₂ h₃ h₄ h₅, hg]
    rcases isJwtTokenValid_snd env.validateResp env.storedToken with hv | hv <;>
      rw [hv] <;> cases hb : env.browserOpenOk <;>
        simp [countEvent, h₆]

/-- Witness for C5: the probe gets a 500 status; login still succeeds
with no upgrade notice and receives the current version "v1". -/
theorem c5_witness :
    versionGoroutine "v1" envFetch500.fetch = "v1" ∧
    (login "v1" envFetch500).fst = Except.ok () ∧
    countEvent (login "v1" envFetch500).snd (Event.recvVersion "v1") = 1 ∧
    countEvent (login "v1" envFetch500).snd Event.printUpgradeNotice = 0 :=
  c5_version_probe_absorbs_failure "v1" "error getting latest release"
    envFetch500 rfl rfl rfl rfl rfl rfl rfl

/-! Lemmas about the callback-channel model. -/

/-- Unfolding one hit of a run. -/
theorem runHits_cons (s : ChanSys) (v : String) (hits : List String) :
    runHits s (v :: hits) = runHits (hitStep s v) hits := rfl

/-- Hits never touch the orchestrator's received list. -/
theorem runHits_received (hits : List String) :
    ∀ s : ChanSys, (runHits s hits).received = s.received := by
  induction hits with
  | nil => intro s; rfl
  | cons v hs ih =>
      intro s
      rw [runHits_cons, ih]
      unfold hitStep
      split <;> rfl

/-- Hits arriving while the channel is full all end up as blocked
senders, in arrival order; the buffer and the received list stay as they
are. -/
theorem runHits_of_full (hits : List String) :
    ∀ s : ChanSys, s.buf.length = chanCap →
      runHits s hits = { s with blocked := s.blocked ++ hits } := by
  induction hits with
  | nil => intro s h; simp [runHits]
  | cons v hs ih =>
      intro s h
      rw [runHits_cons]
      have hstep : hitStep s v = { s with blocked := s.blocked ++ [v] } := by
        unfold hitStep
        simp [h]
      rw [hstep, ih _ (by simpa using h)]
      simp

/-- Every hit is accounted for: a run of hits grows the total number of
values held in the system by exactly the number of hits. -/
theorem runHits_total (hits : List String) :
    ∀ s : ChanSys, totalCount (runHits s hits) = totalCount s + hits.length := by
  induction hits with
  | nil => intro s; rfl
  | cons v hs ih =>
      intro s
      rw [runHits_cons, ih]
      have hstep : totalCount (hitStep s v) = totalCount s + 1 := by
        unfold hitStep
        split <;> simp [totalCount] <;> omega
      rw [hstep]
      simp
      omega

/-- The channel's capacity bound is preserved across any run of hits. -/
theorem runHits_buf_le (hits : List String) :
    ∀ s : ChanSys, s.buf.length ≤ chanCap →
      (runHits s hits).buf.length ≤ chanCap := by
  induction hits with
  | nil => intro s h; exact h
  | cons v hs ih =>
      intro s h
      rw [runHits_cons]
      apply ih
      unfold hitStep
      split
      · rename_i hlt
        simp only [List.length_append, List.length_cons, List.length_nil]
        omega
      · exact h

/-- Claim C6: the result channel has capacity 1; the first callback
hit's send is buffered immediately (no blocked sender), hence never
blocks; across any number of further hits, before or after the
orchestrator's single receive, the orchestrator receives exactly one
credential — the first one delivered; the channel never exceeds its
capacity; and every hit is accounted for as buffered, blocked, or
received, so later hits block only their own handler goroutine and
neither crash nor deadlock the accepting server. -/
theorem c6_single_delivery (v : String) (rest after : List String) :
    chanCap = 1 ∧
    hitStep chanInit v = ⟨[v], [], []⟩ ∧
    (loginDelivery (v :: rest) after).received = [v] ∧
    (loginDelivery (v :: rest) after).buf.length ≤ chanCap ∧
    totalCount (loginDelivery (v :: rest) after) =
      (v :: rest).length + after.length := by
  have h1 : runHits chanInit (v :: rest) = ⟨[v], rest, []⟩ := by
    rw [runHits_cons]
    have h0 : hitStep chanInit v = ⟨[v], [], []⟩ := rfl
    rw [h0, runHits_of_full rest ⟨[v], [], []⟩ rfl]
    rfl
  obtain ⟨m, hm, hrecv, hbuf, htot⟩ :
      ∃ m : ChanSys, recvStep ⟨[v], rest, []⟩ = m ∧ m.received = [v] ∧
        m.buf.length ≤ chanCap ∧ totalCount m = rest.length + 1 := by
    cases rest with
    | nil =>
        exact ⟨⟨[], [], [v]⟩, rfl, rfl, by simp [chanCap], by simp [totalCount]⟩
    | cons b bs =>
        exact ⟨⟨[b], bs, [v]⟩, rfl, rfl, by simp [chanCap],
          by simp [totalCount]; omega⟩
  unfold loginDelivery
  rw [h1, hm]
  refine ⟨rfl, rfl, ?_, ?_, ?_⟩
  · rw [runHits_received]
    exact hrecv
  · exact runHits_buf_le after m hbuf
  · rw [runHits_total, htot]
    simp

/-- Claim C7: a callback request whose query lacks a jwt parameter or
carries an empty jwt value makes the handler push the empty string
downstream unchanged; login receives "", writes "" to persisted
settings, and does not treat the request as an error. -/
theorem c7_empty_jwt_accepted (q : List (String × String)) (ver : String)
    (env : Env)
    (hq : q.find? (fun kv => kv.fst = "jwt") = none ∨ queryGet q "jwt" = "")
    (hjwt : env.jwtCallback = callbackHandlerJwt q)
    (h₁ : env.readSettingsOk = true)
    (h₂ : (isJwtTokenValid env.validateResp env.storedToken).fst = false)
    (h₃ : env.templateOk = true) (h₄ : env.listenOk = true)
    (h₅ : env.parseHostOk = true) (h₆ : env.setTokenOk = true) :
    callbackHandlerJwt q = "" ∧
    countEvent (login ver env).snd (Event.recvJwt "") = 1 ∧
    countEvent (login ver env).snd (Event.setToken "") = 1 ∧
    (login ver env).fst = Except.ok () := by
  have hq' : callbackHandlerJwt q = "" := by
    rcases hq with h | h
    · unfold callbackHandlerJwt queryGet
      rw [h]
    · exact h
  have hj : env.jwtCallback = "" := by rw [hjwt, hq']
  refine ⟨hq', ?_, ?_, ?_⟩
  · rw [login_trace ver env h₁ h₂ h₃ h₄ h₅, hj]
    rcases isJwtTokenValid_snd env.validateResp env.storedToken with hv | hv <;>
      rw [hv] <;> cases hb : env.browserOpenOk <;>
        simp [countEvent, h₆]
  · rw [login_trace ver env h₁ h₂ h₃ h₄ h₅, hj]
    rcases isJwtTokenValid_snd env.validateResp env.storedToken with hv | hv <;>
      rw [hv] <;> cases hb : env.browserOpenOk <;>
        simp [countEvent, h₆]
  · rw [login_result ver env h₁ h₂ h₃ h₄ h₅, h₆]
    rfl

/-- Witness for C7: a callback query carrying only a username. -/
theorem c7_witness :
    callbackHandlerJwt qNoJwt = "" ∧
    countEvent (login "v1" envEmptyJwt).snd (Event.recvJwt "") = 1 ∧
    countEvent (login "v1" envEmptyJwt).snd (Event.setToken "") = 1 ∧
    (login "v1" envEmptyJwt).fst = Except.ok () :=
  c7_empty_jwt_accepted qNoJwt "v1" envEmptyJwt (Or.inl rfl) rfl
    rfl rfl rfl rfl rfl rfl

/-- Claim C8: whatever the port, when the OS browser-open call fails,
`beginAuth` prints the composed login URL and returns success, and the
login flow proceeds to wait for — and receive — the callback credential;
the browser-open failure is never propagated as an error. -/
theorem c8_browser_fallback (ver : String) (env : Env)
    (h₁ : env.readSettingsOk = true)
    (h₂ : (isJwtTokenValid env.validateResp env.storedToken).fst = false)
    (h₃ : env.templateOk = true) (h₄ : env.listenOk = true)
    (h₅ : env.parseHostOk = true) (h₆ : env.browserOpenOk = false) :
    beginAuth env.parseHostOk env.host env.browserOpenOk env.port =
      (Except.ok (), [Event.printURL (composedAuthUrl env.host env.port)]) ∧
    countEvent (login ver env).snd
      (Event.printURL (composedAuthUrl env.host env.port)) = 1 ∧
    countEvent (login ver env).snd (Event.recvJwt env.jwtCallback) = 1 := by
  refine ⟨by simp [beginAuth, h₅, h₆], ?_, ?_⟩
  all_goals
    rw [login_trace ver env h₁ h₂ h₃ h₄ h₅]
    rcases isJwtTokenValid_snd env.validateResp env.storedToken with hv | hv <;>
      rw [hv] <;> cases hs : env.setTokenOk <;>
        simp [countEvent, h₆]

/-- Witness for C8: the browser fails to open; the URL composed from
envBase's host and port is printed and the flow still receives "abc". -/
theorem c8_witness :
    beginAuth envNoBrowser.parseHostOk envNoBrowser.host
        envNoBrowser.browserOpenOk envNoBrowser.port =
      (Except.ok (),
        [Event.printURL (composedAuthUrl envNoBrowser.host envNoBrowser.port)]) ∧
    countEvent (login "v1" envNoBrowser).snd
      (Event.printURL (composedAuthUrl envNoBrowser.host envNoBrowser.port)) = 1 ∧
    countEvent (login "v1" envNoBrowser).snd
      (Event.recvJwt envNoBrowser.jwtCallback) = 1 :=
  c8_browser_fallback "v1" envNoBrowser rfl rfl rfl rfl rfl rfl

/-- Claim C9: on the callback path, login persists the credential it
received from the result channel verbatim — the settings write carries
exactly the received value — and from the credential receive onward no
remote validation request is ever issued. -/
theorem c9_persist_verbatim_no_validation (ver : String) (env : Env)
    (h₁ : env.readSettingsOk = true)
    (h₂ : (isJwtTokenValid env.validateResp env.storedToken).fst = false)
    (h₃ : env.templateOk = true) (h₄ : env.listenOk = true)
    (h₅ : env.parseHostOk = true) :
    countEvent (login ver env).snd (Event.setToken env.jwtCallback) = 1 ∧
    countEvent ((login ver env).snd.drop
        (firstIndexOf (login ver env).snd (Event.recvJwt env.jwtCallback)))
      Event.validateRequest = 0 := by
  rw [login_trace ver env h₁ h₂ h₃ h₄ h₅]
  rcases isJwtTokenValid_snd env.validateResp env.storedToken with hv | hv <;>
    rw [hv] <;> cases hb : env.browserOpenOk <;> cases hs : env.setTokenOk <;>
      simp [countEvent, firstIndexOf]

/-- Witness for C9 at the concrete successful run. -/
theorem c9_witness :
    countEvent (login "v1" envBase).snd
      (Event.setToken envBase.jwtCallback) = 1 ∧
    countEvent ((login "v1" envBase).snd.drop
        (firstIndexOf (login "v1" envBase).snd
          (Event.recvJwt envBase.jwtCallback)))
      Event.validateRequest = 0 :=
  c9_persist_verbatim_no_validation "v1" envBase rfl rfl rfl rfl rfl

/-- Claim C10: `isJwtTokenValid` on the empty token returns false with
no network request, whatever the remote endpoint would have answered;
consequently neither login nor token with an empty stored credential
ever issues a validation request. -/
theorem c10_empty_token_no_validation (vr : Option Nat) (ver : String)
    (env : Env)
    (h₁ : env.readSettingsOk = true) (h₂ : env.storedToken = "") :
    isJwtTokenValid vr "" = (false, []) ∧
    countEvent (login ver env).snd Event.validateRequest = 0 ∧
    countEvent (tokenCmd env).snd Event.validateRequest = 0 := by
  have hv : isJwtTokenValid env.validateResp env.storedToken = (false, []) := by
    rw [h₂]
    rfl
  refine ⟨rfl, ?_, ?_⟩
  · cases h₃ : env.templateOk
    · simp [login, h₁, hv, h₃, countEvent]
    · cases h₄ : env.listenOk
      · simp [login, h₁, hv, h₃, h₄, countEvent]
      · cases h₅ : env.parseHostOk
        · simp [login, beginAuth, h₁, hv, h₃, h₄, h₅, countEvent]
        · rw [login_trace ver env h₁ (by rw [hv]) h₃ h₄ h₅, hv]
          cases hb : env.browserOpenOk <;> cases hs : env.setTokenOk <;>
            simp [countEvent]
  · simp [tokenCmd, h₁, hv, countEvent]

/-- Witness for C10 at the concrete empty-credential run. -/
theorem c10_witness :
    isJwtTokenValid none "" = (false, []) ∧
    countEvent (login "v1" envBase).snd Event.validateRequest = 0 ∧
    countEvent (tokenCmd envBase).snd Event.validateRequest = 0 :=
  c10_empty_token_no_validation none "v1" envBase rfl rfl

end TursoAuth
